import Mathlib

/-!
Shallow embedding of `scripts/convert.py` (SporeNet model converter).

Pure Python values become Lean values; the file system becomes an explicit
association list from paths to file contents; the external compiler toolchain
(`tf.lite.TFLiteConverter.convert`) becomes a function parameter from the
converter configuration to `Except String Artifact`; exceptions become
`Except`.  Every definition is translated from the source file; line numbers
in doc comments refer to `scripts/convert.py`.
-/

namespace Spore

/-- Contents of one file: a converted binary (list of byte values, each meant
to be below 256) or generated text.  A directory tree (the intermediate
SavedModel folder) is recorded as an empty binary entry for its path. -/
inductive FileData where
  | bin (bytes : List Nat)
  | text (s : String)
deriving DecidableEq

/-- The file system: an association list from path to contents.  The most
recent write of a path is the first entry with that key. -/
abbrev FS := List (String × FileData)

/-- Writing a file (`open(path, "w"/"wb")` followed by `write`), or creating a
directory: the new entry shadows older ones. -/
def FS.write (fs : FS) (p : String) (d : FileData) : FS := (p, d) :: fs

/-- Embedding of `os.path.exists`. -/
def FS.pathExists (fs : FS) (p : String) : Bool := fs.any (fun e => e.1 == p)

/-- Embedding of `os.remove` / `shutil.rmtree`: every entry at the path goes. -/
def FS.remove (fs : FS) (p : String) : FS := fs.filter (fun e => !(e.1 == p))

/-- Embedding of reading a file back (`open(path, "rb").read()`). -/
def FS.read (fs : FS) (p : String) : Option FileData :=
  (fs.find? (fun e => e.1 == p)).map (fun e => e.2)

/-- Fuel-driven core of Python `str.replace`: replace every non-overlapping
occurrence of `pat`, scanning left to right.  The fuel bounds the number of
scan steps; `replaceAll` supplies the length of the subject, which is enough
for a full scan.  An empty pattern leaves the subject unchanged (the script
only ever replaces the literal ".tflite"). -/
def replaceAllFuel (pat rep : List Char) : Nat → List Char → List Char
  | 0, l => l
  | fuel + 1, l =>
    match l with
    | [] => []
    | c :: rest =>
      if pat ≠ [] ∧ pat.isPrefixOf l then
        rep ++ replaceAllFuel pat rep fuel (List.drop pat.length l)
      else c :: replaceAllFuel pat rep fuel rest

/-- Python `subject.replace(pat, rep)` on explicit character lists. -/
def replaceAll (pat rep l : List Char) : List Char :=
  replaceAllFuel pat rep l.length l

/-- Python `s.replace(pat, rep)` on strings. -/
def pyReplace (s pat rep : String) : String := ⟨replaceAll pat.data rep.data s.data⟩

/-- Whether `pat` occurs as a contiguous sublist of the subject. -/
def containsSub (pat : List Char) : List Char → Bool
  | [] => pat.isEmpty
  | c :: rest => pat.isPrefixOf (c :: rest) || containsSub pat rest

/-- Line 279: `header_path = args.output.replace(".tflite", ".h")`. -/
def header_path (output : String) : String := pyReplace output ".tflite" ".h"

/-- Line 128: `onnx_path = output_path.replace(".tflite", ".onnx")`. -/
def onnx_path (output : String) : String := pyReplace output ".tflite" ".onnx"

/-- Line 161: `tf_model_path = output_path.replace(".tflite", "_tf_model")`. -/
def tf_model_path (output : String) : String := pyReplace output ".tflite" "_tf_model"

/-- The one optimization value the script uses, `tf.lite.Optimize.DEFAULT`. -/
inductive Optimize where
  | DEFAULT
deriving DecidableEq

/-- The mutable state of a `tf.lite.TFLiteConverter` object as far as the
script touches it: the optimization list (lines 64, 94, 174), the
representative-dataset input shape (line 78, recorded by the batch-stripped
shape it was built from), and the three int8 settings (lines 79-81). -/
structure ConverterConfig where
  optimizations : List Optimize
  representative_shape : Option (List Nat)
  supported_ops_int8 : Bool
  inference_input_int8 : Bool
  inference_output_int8 : Bool
deriving DecidableEq

/-- A freshly constructed converter: no optimizations, no representative
dataset, no int8 settings. -/
def ConverterConfig.initial : ConverterConfig :=
  { optimizations := [], representative_shape := none,
    supported_ops_int8 := false, inference_input_int8 := false,
    inference_output_int8 := false }

/-- Converter state after the quantization-configuration block of
`convert_tensorflow_model` (lines 62-84).  `input_shape` is the loaded
model's declared `input_shape` attribute (`none` when the attribute is absent
or the shape is empty Python-falsy); the batch dimension is stripped by
`input_shape[1:]` (line 70). -/
def planConfig (quantize : Bool) (input_shape : Option (List Nat)) : ConverterConfig :=
  if quantize then
    match input_shape with
    | some s =>
      if s ≠ [] then
        { optimizations := [Optimize.DEFAULT], representative_shape := some (s.drop 1),
          supported_ops_int8 := true, inference_input_int8 := true,
          inference_output_int8 := true }
      else { ConverterConfig.initial with optimizations := [Optimize.DEFAULT] }
    | none => { ConverterConfig.initial with optimizations := [Optimize.DEFAULT] }
  else ConverterConfig.initial

/-- The representative-dataset generator of lines 72-76: one hundred yields of
a random tensor of shape `(1,) + input_shape`; each yielded tensor is recorded
by its shape (the random float contents are outside the embedding). -/
def representative_dataset (stripped_shape : List Nat) : List (List Nat) :=
  List.replicate 100 (1 :: stripped_shape)

/-- Spec-side quantization mode of a converter configuration (spec section
4.2): int8 inference types mean INTEGER_8BIT, otherwise a non-empty
optimization list means DEFAULT_OPTIMIZE, otherwise NONE. -/
inductive QuantMode where
  | NONE
  | DEFAULT_OPTIMIZE
  | INTEGER_8BIT
deriving DecidableEq

/-- Abstraction map from converter state to the spec's plan mode. -/
def planMode (cfg : ConverterConfig) : QuantMode :=
  if cfg.inference_input_int8 then QuantMode.INTEGER_8BIT
  else if cfg.optimizations.isEmpty then QuantMode.NONE
  else QuantMode.DEFAULT_OPTIMIZE

/-- Abstraction map to the spec's plan `enabled` flag. -/
def planEnabled (cfg : ConverterConfig) : Bool :=
  !cfg.optimizations.isEmpty || cfg.inference_input_int8

/-- Element type declared by the produced TFLite artifact. -/
inductive Dtype where
  | float32
  | int8
deriving DecidableEq

/-- The artifact a toolchain call produces: the serialized flatbuffer bytes
and the declared tensor element type reported by the interpreter. -/
structure Artifact where
  bytes : List Nat
  dtype : Dtype
deriving DecidableEq

/-- The external compiler toolchain (`converter.convert()`): from the
converter's configured state to either an artifact or a raised exception
message. -/
abbrev Toolchain := ConverterConfig → Except String Artifact

/-- Abstract model of the real TFLite toolchain, used where a claim speaks
about the produced artifact: it always succeeds, emits some bytes depending
on the configuration, and declares int8 element types exactly when the
configuration requested int8 inference types, float32 otherwise. -/
def tfliteToolchain (emit : ConverterConfig → List Nat) : Toolchain := fun cfg =>
  Except.ok { bytes := emit cfg,
              dtype := if cfg.inference_input_int8 then Dtype.int8 else Dtype.float32 }

/-- A toolchain forced to fail on every invocation. -/
def alwaysFailToolchain : Toolchain := fun _ => Except.error "forced failure"

/-- An artifact inspection that always passes. -/
def acceptAll : Artifact → Bool := fun _ => true

/-- Result of one converter function: the file system after the call, the
configurations passed to each `converter.convert()` invocation in order, and
the returned artifact or the raised exception. -/
structure ConvResult where
  fs : FS
  attempts : List ConverterConfig
  result : Except String Artifact

/-- Shallow embedding of `convert_tensorflow_model` (lines 39-114).
Lines 86-96: try `converter.convert()`; on any exception clear only
`converter.optimizations` and call `converter.convert()` once more, letting a
second exception propagate.  Lines 98-100: write the binary to `output_path`.
Lines 103-114: load the artifact back through the interpreter; `inspect`
models that readback succeeding. -/
def convert_tensorflow_model (tc : Toolchain) (inspect : Artifact → Bool)
    (output_path : String) (quantize : Bool) (input_shape : Option (List Nat))
    (fs : FS) : ConvResult :=
  let cfg0 := planConfig quantize input_shape
  match tc cfg0 with
  | Except.ok a =>
    let fs1 := FS.write fs output_path (FileData.bin a.bytes)
    if inspect a then { fs := fs1, attempts := [cfg0], result := Except.ok a }
    else { fs := fs1, attempts := [cfg0], result := Except.error "ArtifactInvalid" }
  | Except.error _ =>
    let cfg1 := { cfg0 with optimizations := [] }
    match tc cfg1 with
    | Except.ok a =>
      let fs1 := FS.write fs output_path (FileData.bin a.bytes)
      if inspect a then { fs := fs1, attempts := [cfg0, cfg1], result := Except.ok a }
      else { fs := fs1, attempts := [cfg0, cfg1], result := Except.error "ArtifactInvalid" }
    | Except.error e => { fs := fs, attempts := [cfg0, cfg1], result := Except.error e }

/-- Converter state built by `convert_onnx_model` (lines 173-174): only the
optimization list is set, and only when quantizing. -/
def onnxConfig (quantize : Bool) : ConverterConfig :=
  { ConverterConfig.initial with
    optimizations := if quantize then [Optimize.DEFAULT] else [] }

/-- Shallow embedding of `convert_onnx_model` (lines 152-188).
Lines 154-155: raise at once when the onnx import failed.  Lines 159-168:
`onnx2tf.convert` materializes the intermediate SavedModel directory at
`tf_model_path`.  Lines 171-176: build the converter and call
`converter.convert()` once; lines 178-182: write the output and only then
remove the intermediate directory; lines 185-188: any exception is re-raised
after logging, with no retry and no cleanup. -/
def convert_onnx_model (tc : Toolchain) (onnxAvail : Bool)
    (model_path output_path : String) (quantize : Bool) (fs : FS) : ConvResult :=
  if onnxAvail then
    let tfp := tf_model_path output_path
    let fs1 := FS.write fs tfp (FileData.bin [])
    let cfg := onnxConfig quantize
    match tc cfg with
    | Except.ok a =>
      let fs2 := FS.write fs1 output_path (FileData.bin a.bytes)
      let fs3 := FS.remove fs2 tfp
      { fs := fs3, attempts := [cfg], result := Except.ok a }
    | Except.error e => { fs := fs1, attempts := [cfg], result := Except.error e }
  else { fs := fs, attempts := [], result := Except.error "ONNX not available" }

/-- Line 132: `dummy_input = torch.randn(1, 3, 224, 224)`. -/
def dummy_input_shape : List Nat := [1, 3, 224, 224]

/-- Result of the PyTorch converter: additionally records the shape of the
synthetic tensor passed to `torch.onnx.export`, when the export ran. -/
structure PtResult where
  fs : FS
  attempts : List ConverterConfig
  exportShape : Option (List Nat)
  result : Except String Artifact

/-- Shallow embedding of `convert_pytorch_model` (lines 116-150).
Lines 118-119: raise at once when the torch import failed.  Lines 124-144:
load the model and export it to `onnx_path` with the fixed dummy input;
`model_input_shape` is the loaded model's true input shape, which the code
never consults.  Line 147: delegate to `convert_onnx_model`.  Line 150:
`os.remove(onnx_path)` runs only when the delegate returned normally. -/
def convert_pytorch_model (tc : Toolchain) (torchAvail onnxAvail : Bool)
    (model_input_shape : List Nat) (model_path output_path : String)
    (quantize : Bool) (fs : FS) : PtResult :=
  if torchAvail then
    let op := onnx_path output_path
    let fs1 := FS.write fs op (FileData.bin [])
    let r := convert_onnx_model tc onnxAvail op output_path quantize fs1
    match r.result with
    | Except.ok a =>
      { fs := FS.remove r.fs op, attempts := r.attempts,
        exportShape := some dummy_input_shape, result := Except.ok a }
    | Except.error e =>
      { fs := r.fs, attempts := r.attempts,
        exportShape := some dummy_input_shape, result := Except.error e }
  else
    { fs := fs, attempts := [], exportShape := none,
      result := Except.error "PyTorch not available" }

/-- Hex digit character of a value below 16, as Python lowercase `%x`. -/
def hexDigitChar (n : Nat) : Char :=
  if n < 10 then Char.ofNat (48 + n) else Char.ofNat (87 + n)

/-- Line 216: the literal appended for one byte, the f-string
`0x{byte:02x},` rendered for a byte value below 256. -/
def byteLiteral (b : Nat) : List Char :=
  ['0', 'x', hexDigitChar (b / 16), hexDigitChar (b % 16), ',']

/-- Lines 213-216: the hex-array body.  `i` is the running index of the
enumerate loop; a newline and two-space indent precede every literal whose
index is a multiple of 16. -/
def hexArrayFrom (i : Nat) : List Nat → List Char
  | [] => []
  | b :: rest =>
    (if i % 16 = 0 then ['\n', ' ', ' '] else []) ++ byteLiteral b ++
      hexArrayFrom (i + 1) rest

/-- Lines 197-210: the fixed header text before the hex array, with the model
size interpolated. -/
def headerPrefix (n : Nat) : String :=
  "// Auto-generated model header for SporeNet\n// Model size: " ++ toString n ++
  " bytes\n\n#ifndef SPORENET_MODEL_H\n#define SPORENET_MODEL_H\n\n#include <stdint.h>\n\n// Model data\nextern const unsigned char sporenet_model_data[];\nextern const int sporenet_model_data_len;\n\nconst unsigned char sporenet_model_data[] = \x7b\n"

/-- Lines 218-224: the fixed trailer after the hex array, carrying the length
constant. -/
def headerSuffix (n : Nat) : String :=
  "\n\x7d;\n\nconst int sporenet_model_data_len = " ++ toString n ++
  ";\n\n#endif // SPORENET_MODEL_H\n"

/-- The full text `generate_model_header` (lines 190-229) writes for the given
model bytes. -/
def generate_model_header_content (model_data : List Nat) : String :=
  headerPrefix model_data.length ++ String.mk (hexArrayFrom 0 model_data) ++
    headerSuffix model_data.length

/-- Whether a character is a lowercase hexadecimal digit. -/
def isLowerHex (c : Char) : Bool :=
  (decide ('0' ≤ c) && decide (c ≤ '9')) || (decide ('a' ≤ c) && decide (c ≤ 'f'))

/-- Numeric value of a lowercase hexadecimal digit. -/
def hexDigitVal (c : Char) : Nat :=
  if decide ('0' ≤ c) && decide (c ≤ '9') then c.toNat - 48
  else if decide ('a' ≤ c) && decide (c ≤ 'f') then c.toNat - 87
  else 0

/-- Inverse rendering of the hex literals: scan the characters, and at every
occurrence of `0x` followed by two lowercase hex digits read back one byte;
every other character is skipped. -/
def decodeHexBytes : List Char → List Nat
  | [] => []
  | '0' :: 'x' :: d1 :: d2 :: rest2 =>
    if isLowerHex d1 && isLowerHex d2 then
      (16 * hexDigitVal d1 + hexDigitVal d2) :: decodeHexBytes rest2
    else decodeHexBytes ('x' :: d1 :: d2 :: rest2)
  | _ :: rest => decodeHexBytes rest
termination_by l => l.length
decreasing_by
  all_goals simp <;> omega

/-- Successive groups of `n` elements of a list (the last group may be
shorter); describes the lines of the generated hex array. -/
def chunksOf (n : Nat) : List Nat → List (List Nat)
  | [] => []
  | x :: xs => (x :: xs.take (n - 1)) :: chunksOf n (xs.drop (n - 1))
termination_by l => l.length
decreasing_by simp [Nat.lt_succ_iff]

/-- One line of the generated hex array: newline, two-space indent, then the
literals of the chunk. -/
def renderChunk (chunk : List Nat) : List Char :=
  ['\n', ' ', ' '] ++ (chunk.map byteLiteral).flatten

/-- The dispatch enumeration of line 237: `choices=[tensorflow, pytorch, onnx]`. -/
inductive Framework where
  | tensorflow
  | pytorch
  | onnx
deriving DecidableEq

/-- The parsed command line (lines 232-249). -/
structure Args where
  model : String
  framework : Framework
  output : String
  quantize : Bool
  generate_header : Bool

/-- Outcome of one process run of `main`. -/
inductive MainOutcome where
  | TfMissing
  | InputNotFound
  | ConversionFailed (cause : String)
  | Success
deriving DecidableEq

/-- Process exit code for an outcome: `sys.exit(1)` on every failure path
(lines 22, 257, 290), 0 on normal completion. -/
def model_exit_code : MainOutcome → Nat
  | MainOutcome.Success => 0
  | _ => 1

/-- Availability flags recorded once by `setup_imports`. -/
structure Deps where
  torchAvail : Bool
  onnxAvail : Bool
deriving DecidableEq

/-- Shallow embedding of `setup_imports` (lines 14-37): when the tensorflow
module is missing the process exits (`none`); missing optional modules only
clear the corresponding global, recorded here as an availability flag probed
exactly once per process. -/
def setup_imports (tfImportOk torchImportOk onnxImportOk : Bool) : Option Deps :=
  if tfImportOk then some { torchAvail := torchImportOk, onnxAvail := onnxImportOk }
  else none

/-- Result of one process run: final file system, the toolchain invocations
made, and the outcome. -/
structure MainResult where
  fs : FS
  attempts : List ConverterConfig
  outcome : MainOutcome

/-- Shallow embedding of `main` (lines 231-290).  After `setup_imports`, the
input path is checked (lines 254-257) before any converter runs; the
framework is dispatched (lines 266-273); on success the header is generated
when requested (lines 277-280) by reading the output file back and writing
the header text at `header_path`; any exception from the converters is caught
and turns into a failing exit (lines 288-290). -/
def main_run (tc : Toolchain) (inspect : Artifact → Bool)
    (tfImportOk torchImportOk onnxImportOk : Bool)
    (model_input_shape : Option (List Nat)) (args : Args) (fs : FS) : MainResult :=
  match setup_imports tfImportOk torchImportOk onnxImportOk with
  | none => { fs := fs, attempts := [], outcome := MainOutcome.TfMissing }
  | some deps =>
    if FS.pathExists fs args.model then
      let r : ConvResult :=
        match args.framework with
        | Framework.tensorflow =>
          convert_tensorflow_model tc inspect args.output args.quantize
            model_input_shape fs
        | Framework.pytorch =>
          let p := convert_pytorch_model tc deps.torchAvail deps.onnxAvail
            (model_input_shape.getD []) args.model args.output args.quantize fs
          { fs := p.fs, attempts := p.attempts, result := p.result }
        | Framework.onnx =>
          convert_onnx_model tc deps.onnxAvail args.model args.output
            args.quantize fs
      match r.result with
      | Except.ok _ =>
        if args.generate_header then
          let hdr :=
            match FS.read r.fs args.output with
            | some (FileData.bin b) => FileData.text (generate_model_header_content b)
            | _ => FileData.text (generate_model_header_content [])
          { fs := FS.write r.fs (header_path args.output) hdr,
            attempts := r.attempts, outcome := MainOutcome.Success }
        else { fs := r.fs, attempts := r.attempts, outcome := MainOutcome.Success }
      | Except.error e =>
        { fs := r.fs, attempts := r.attempts,
          outcome := MainOutcome.ConversionFailed e }
    else { fs := fs, attempts := [], outcome := MainOutcome.InputNotFound }

/-! Basic file-system lemmas. -/

theorem FS.read_write_self (fs : FS) (p : String) (d : FileData) :
    FS.read (FS.write fs p d) p = some d := by
  simp [FS.read, FS.write, List.find?]

theorem FS.pathExists_remove_self (fs : FS) (p : String) :
    FS.pathExists (FS.remove fs p) p = false := by
  induction fs with
  | nil => rfl
  | cons e fs ih =>
    cases h : (e.1 == p) with
    | true => simp [FS.remove, FS.pathExists, h, ih]
    | false => simp [FS.remove, FS.pathExists, h, ih]

theorem FS.pathExists_remove_mono (fs : FS) (p q : String)
    (h : FS.pathExists fs p = false) : FS.pathExists (FS.remove fs q) p = false := by
  induction fs with
  | nil => rfl
  | cons e fs ih =>
    simp only [FS.pathExists, List.any_cons, Bool.or_eq_false_iff] at h
    cases hq : (e.1 == q) with
    | true => simpa [FS.remove, FS.pathExists, hq] using ih h.2
    | false =>
      have := ih h.2
      simp only [FS.remove, List.filter, hq] at this ⊢
      simpa [FS.pathExists, h.1] using this

/-! Python `str.replace` on a subject with no occurrence of the pattern. -/

theorem replaceAllFuel_eq_self (pat rep : List Char) :
    ∀ (fuel : Nat) (l : List Char), containsSub pat l = false →
      replaceAllFuel pat rep fuel l = l := by
  intro fuel
  induction fuel with
  | zero => intro l _; rfl
  | succ fuel ih =>
    intro l h
    match l with
    | [] => rfl
    | c :: rest =>
      simp only [containsSub, Bool.or_eq_false_iff] at h
      simp [replaceAllFuel, h.1, ih rest h.2]

theorem pyReplace_eq_self (s pat rep : String)
    (h : containsSub pat.data s.data = false) : pyReplace s pat rep = s := by
  unfold pyReplace replaceAll
  rw [replaceAllFuel_eq_self pat.data rep.data s.data.length s.data h]

/-- Claim C9: when the output path does not contain the substring ".tflite",
every derived path (the C-header path of line 279, the intermediate ONNX path
of line 128, the intermediate SavedModel path of line 161) is the unchanged
output path itself, and consequently a run of main with header generation
enabled finishes with the header text stored at the output path, overwriting
the converted binary that was written there. -/
theorem C9_derived_paths_collide (out : String)
    (h : containsSub ".tflite".data out.data = false) :
    header_path out = out ∧ onnx_path out = out ∧ tf_model_path out = out ∧
      ∀ (emit : ConverterConfig → List Nat) (mp : String) (q : Bool)
        (shape : Option (List Nat)) (fs : FS), FS.pathExists fs mp = true →
        FS.read (main_run (tfliteToolchain emit) acceptAll true true true shape
            { model := mp, framework := Framework.tensorflow, output := out,
              quantize := q, generate_header := true } fs).fs out =
          some (FileData.text
            (generate_model_header_content (emit (planConfig q shape)))) := by
  have hh : header_path out = out := pyReplace_eq_self out ".tflite" ".h" h
  refine ⟨hh, pyReplace_eq_self out ".tflite" ".onnx" h,
    pyReplace_eq_self out ".tflite" "_tf_model" h, ?_⟩
  intro emit mp q shape fs hmp
  simp only [main_run, setup_imports, if_true, hmp, if_pos,
    convert_tensorflow_model, tfliteToolchain, acceptAll]
  simp [hh, FS.read_write_self]

/-- Witness for C9 at the concrete output path "model.bin". -/
theorem C9_witness :
    (containsSub ".tflite".data "model.bin".data = false) ∧
      (header_path "model.bin" = "model.bin" ∧ onnx_path "model.bin" = "model.bin" ∧
        tf_model_path "model.bin" = "model.bin" ∧
        ∀ (emit : ConverterConfig → List Nat) (mp : String) (q : Bool)
          (shape : Option (List Nat)) (fs : FS), FS.pathExists fs mp = true →
          FS.read (main_run (tfliteToolchain emit) acceptAll true true true shape
              { model := mp, framework := Framework.tensorflow, output := "model.bin",
                quantize := q, generate_header := true } fs).fs "model.bin" =
            some (FileData.text
              (generate_model_header_content (emit (planConfig q shape))))) :=
  ⟨by decide, C9_derived_paths_collide "model.bin" (by decide)⟩

/-- A concrete toolchain output used by witnesses: one byte 0x41. -/
def oneByteEmit : ConverterConfig → List Nat := fun _ => [65]

/-- Claim C5: with the required tensorflow import available, a request whose
source path does not exist fails immediately with InputNotFound at dispatch:
no converter (and hence no toolchain attempt) runs, the process exit code is
non-zero, and the file system is left untouched, so no temporary files are
created. -/
theorem C5_input_not_found (tc : Toolchain) (inspect : Artifact → Bool)
    (torchOk onnxOk : Bool) (shape : Option (List Nat)) (args : Args) (fs : FS)
    (h : FS.pathExists fs args.model = false) :
    main_run tc inspect true torchOk onnxOk shape args fs =
      { fs := fs, attempts := [], outcome := MainOutcome.InputNotFound } ∧
      model_exit_code
        (main_run tc inspect true torchOk onnxOk shape args fs).outcome ≠ 0 := by
  have hm : main_run tc inspect true torchOk onnxOk shape args fs =
      { fs := fs, attempts := [], outcome := MainOutcome.InputNotFound } := by
    simp [main_run, setup_imports, h]
  exact ⟨hm, by rw [hm]; simp [model_exit_code]⟩

/-- Witness for C5: a nonexistent model path on an empty file system. -/
theorem C5_witness :
    (FS.pathExists ([] : FS) "missing.h5" = false) ∧
      (main_run alwaysFailToolchain acceptAll true true true none
          { model := "missing.h5", framework := Framework.tensorflow,
            output := "out.tflite", quantize := true, generate_header := false }
          [] =
        { fs := [], attempts := [], outcome := MainOutcome.InputNotFound } ∧
        model_exit_code
          (main_run alwaysFailToolchain acceptAll true true true none
            { model := "missing.h5", framework := Framework.tensorflow,
              output := "out.tflite", quantize := true, generate_header := false }
            []).outcome ≠ 0) :=
  ⟨rfl, C5_input_not_found alwaysFailToolchain acceptAll true true none
    { model := "missing.h5", framework := Framework.tensorflow,
      output := "out.tflite", quantize := true, generate_header := false }
    [] rfl⟩

/-- Claim C7: with torch importable, the PyTorch converter exports through the
fixed synthetic input shape [1, 3, 224, 224] regardless of the true model
input shape (the run is literally identical for any two model shapes), and
delegates the rest of the conversion to convert_onnx_model on the
intermediate ONNX path: attempts and result agree exactly with the delegated
call. -/
theorem C7_pytorch_fixed_shape_delegates (tc : Toolchain) (onnxAvail : Bool)
    (shape1 shape2 : List Nat) (mp out : String) (q : Bool) (fs : FS) :
    (convert_pytorch_model tc true onnxAvail shape1 mp out q fs).exportShape =
        some [1, 3, 224, 224] ∧
    (convert_pytorch_model tc true onnxAvail shape1 mp out q fs).attempts =
        (convert_onnx_model tc onnxAvail (onnx_path out) out q
          (FS.write fs (onnx_path out) (FileData.bin []))).attempts ∧
    (convert_pytorch_model tc true onnxAvail shape1 mp out q fs).result =
        (convert_onnx_model tc onnxAvail (onnx_path out) out q
          (FS.write fs (onnx_path out) (FileData.bin []))).result ∧
    convert_pytorch_model tc true onnxAvail shape1 mp out q fs =
        convert_pytorch_model tc true onnxAvail shape2 mp out q fs := by
  cases hr : (convert_onnx_model tc onnxAvail (onnx_path out) out q
      (FS.write fs (onnx_path out) (FileData.bin []))).result with
  | ok a => simp [convert_pytorch_model, hr, dummy_input_shape]
  | error e => simp [convert_pytorch_model, hr, dummy_input_shape]

/-- Claim C10: in the TensorFlow converter the produced binary is written in
full to the output path before the interpreter readback runs: whenever the
first toolchain attempt succeeds with artifact a, the output file holds
exactly the bytes of a afterwards, both when the inspection passes and when
it fails; an inspection failure surfaces as an error with no rollback of the
already-written output. -/
theorem C10_write_precedes_inspection (tc : Toolchain) (inspect : Artifact → Bool)
    (out : String) (q : Bool) (shape : Option (List Nat)) (fs : FS) (a : Artifact)
    (h : tc (planConfig q shape) = Except.ok a) :
    FS.read (convert_tensorflow_model tc inspect out q shape fs).fs out =
        some (FileData.bin a.bytes) ∧
    (inspect a = false →
      (convert_tensorflow_model tc inspect out q shape fs).result =
        Except.error "ArtifactInvalid") ∧
    (inspect a = true →
      (convert_tensorflow_model tc inspect out q shape fs).result = Except.ok a) := by
  simp only [convert_tensorflow_model, h]
  cases hi : inspect a
  · simp [hi, FS.read_write_self]
  · simp [hi, FS.read_write_self]

/-- Witness for C10: a toolchain that succeeds with the single byte 0x41. -/
theorem C10_witness :
    (tfliteToolchain oneByteEmit (planConfig false none) =
        Except.ok { bytes := [65], dtype := Dtype.float32 }) ∧
      (FS.read (convert_tensorflow_model (tfliteToolchain oneByteEmit) acceptAll
            "out.tflite" false none []).fs "out.tflite" =
          some (FileData.bin [65]) ∧
        (acceptAll { bytes := [65], dtype := Dtype.float32 } = false →
          (convert_tensorflow_model (tfliteToolchain oneByteEmit) acceptAll
              "out.tflite" false none []).result = Except.error "ArtifactInvalid") ∧
        (acceptAll { bytes := [65], dtype := Dtype.float32 } = true →
          (convert_tensorflow_model (tfliteToolchain oneByteEmit) acceptAll
              "out.tflite" false none []).result =
            Except.ok { bytes := [65], dtype := Dtype.float32 })) :=
  ⟨rfl, C10_write_precedes_inspection (tfliteToolchain oneByteEmit) acceptAll
    "out.tflite" false none [] { bytes := [65], dtype := Dtype.float32 } rfl⟩

/-- Claim C4: when quantization is requested and the model declares a concrete
nonempty input shape, the configurator enables full int8 quantization: the
plan mode is INTEGER_8BIT and enabled, the recorded representative shape is
the declared shape with the batch dimension stripped, and the representative
dataset yields exactly 100 samples, each a tensor of that stripped shape
under a unit batch dimension. -/
theorem C4_int8_plan (s : List Nat) (hs : s ≠ []) :
    planMode (planConfig true (some s)) = QuantMode.INTEGER_8BIT ∧
    planEnabled (planConfig true (some s)) = true ∧
    (planConfig true (some s)).representative_shape = some (s.drop 1) ∧
    (planConfig true (some s)).supported_ops_int8 = true ∧
    (planConfig true (some s)).inference_input_int8 = true ∧
    (planConfig true (some s)).inference_output_int8 = true ∧
    (representative_dataset (s.drop 1)).length = 100 ∧
    ∀ t ∈ representative_dataset (s.drop 1), t = 1 :: s.drop 1 := by
  have hc : planConfig true (some s) =
      { optimizations := [Optimize.DEFAULT], representative_shape := some (s.drop 1),
        supported_ops_int8 := true, inference_input_int8 := true,
        inference_output_int8 := true } := by
    simp [planConfig, hs]
  rw [hc]
  refine ⟨rfl, rfl, rfl, rfl, rfl, rfl, rfl, ?_⟩
  intro t ht
  exact List.eq_of_mem_replicate ht

/-- Witness for C4 at the declared shape [1, 28, 28, 1]. -/
theorem C4_witness :
    (([1, 28, 28, 1] : List Nat) ≠ []) ∧
      (planMode (planConfig true (some [1, 28, 28, 1])) = QuantMode.INTEGER_8BIT ∧
        planEnabled (planConfig true (some [1, 28, 28, 1])) = true ∧
        (planConfig true (some [1, 28, 28, 1])).representative_shape =
          some ([1, 28, 28, 1].drop 1) ∧
        (planConfig true (some [1, 28, 28, 1])).supported_ops_int8 = true ∧
        (planConfig true (some [1, 28, 28, 1])).inference_input_int8 = true ∧
        (planConfig true (some [1, 28, 28, 1])).inference_output_int8 = true ∧
        (representative_dataset ([1, 28, 28, 1].drop 1)).length = 100 ∧
        ∀ t ∈ representative_dataset ([1, 28, 28, 1].drop 1),
          t = 1 :: [1, 28, 28, 1].drop 1) :=
  ⟨by decide, C4_int8_plan [1, 28, 28, 1] (by decide)⟩

/-- Claim C6: with quantization disabled the configurator returns the
untouched converter state (plan enabled false, mode NONE, in both the
TensorFlow and the ONNX converter), and under the modelled TFLite toolchain
any artifact either converter then returns declares float32 element types,
never int8. -/
theorem C6_no_quantize_float32 (emit : ConverterConfig → List Nat)
    (inspect : Artifact → Bool) (shape : Option (List Nat)) (mp out : String)
    (fs fs2 : FS) (a b : Artifact)
    (ha : (convert_tensorflow_model (tfliteToolchain emit) inspect out false
        shape fs).result = Except.ok a)
    (hb : (convert_onnx_model (tfliteToolchain emit) true mp out false
        fs2).result = Except.ok b) :
    planConfig false shape = ConverterConfig.initial ∧
    planEnabled (planConfig false shape) = false ∧
    planMode (planConfig false shape) = QuantMode.NONE ∧
    onnxConfig false = ConverterConfig.initial ∧
    a.dtype = Dtype.float32 ∧ b.dtype = Dtype.float32 := by
  refine ⟨rfl, rfl, rfl, rfl, ?_, ?_⟩
  · have hc : tfliteToolchain emit (planConfig false shape) =
        Except.ok { bytes := emit (planConfig false shape),
                    dtype := Dtype.float32 } := rfl
    simp only [convert_tensorflow_model, hc] at ha
    split at ha
    · cases ha
      rfl
    · simp at ha
  · have hc : tfliteToolchain emit (onnxConfig false) =
        Except.ok { bytes := emit (onnxConfig false),
                    dtype := Dtype.float32 } := rfl
    simp only [convert_onnx_model, if_true, hc] at hb
    cases hb
    rfl

/-- Witness for C6: both converters run with the one-byte toolchain and a
passing inspection. -/
theorem C6_witness :
    ((convert_tensorflow_model (tfliteToolchain oneByteEmit) acceptAll
        "out.tflite" false none []).result =
      Except.ok { bytes := [65], dtype := Dtype.float32 }) ∧
    ((convert_onnx_model (tfliteToolchain oneByteEmit) true "m.onnx"
        "out.tflite" false []).result =
      Except.ok { bytes := [65], dtype := Dtype.float32 }) ∧
    (planConfig false none = ConverterConfig.initial ∧
      planEnabled (planConfig false none) = false ∧
      planMode (planConfig false none) = QuantMode.NONE ∧
      onnxConfig false = ConverterConfig.initial ∧
      Artifact.dtype { bytes := [65], dtype := Dtype.float32 } = Dtype.float32 ∧
      Artifact.dtype { bytes := [65], dtype := Dtype.float32 } = Dtype.float32) :=
  ⟨rfl, rfl, C6_no_quantize_float32 oneByteEmit acceptAll none "m.onnx"
    "out.tflite" [] [] { bytes := [65], dtype := Dtype.float32 }
    { bytes := [65], dtype := Dtype.float32 } rfl rfl⟩

theorem FS.pathExists_write_self (fs : FS) (p : String) (d : FileData) :
    FS.pathExists (FS.write fs p d) p = true := by
  simp [FS.pathExists, FS.write]

/-- Counterexample to claim C1 as stated: under a forced-always-failing
toolchain the ONNX converter is invoked exactly once, not twice; its failure
is re-raised with no retry. -/
theorem C1_counterexample :
    ¬ ((convert_onnx_model alwaysFailToolchain true "model.onnx" "model.tflite"
        true []).attempts.length = 2) := by
  decide

/-- Claim C1 (amended): the single-step fallback exists only in the
TensorFlow converter: if its Attempt 1 raises, exactly one retry runs with
the same converter state except a cleared optimization list (the int8
settings of the original plan are not removed), and a failing Attempt 2 is
surfaced unchanged with no further retries, so a forced-always-failing
TensorFlow conversion shows exactly 2 toolchain invocations; the ONNX
converter (also reached from the PyTorch path) has no retry at all: its
failure is re-raised after exactly 1 invocation. -/
theorem C1_fallback_retry (tc : Toolchain) (inspect : Artifact → Bool)
    (out mp : String) (q : Bool) (shape : Option (List Nat)) (fs fs2 : FS)
    (e0 e1 eo : String)
    (h0 : tc (planConfig q shape) = Except.error e0)
    (h1 : tc { planConfig q shape with optimizations := [] } = Except.error e1)
    (ho : tc (onnxConfig q) = Except.error eo) :
    (convert_tensorflow_model tc inspect out q shape fs).attempts =
      [planConfig q shape, { planConfig q shape with optimizations := [] }] ∧
    (convert_tensorflow_model tc inspect out q shape fs).result =
      Except.error e1 ∧
    (convert_onnx_model tc true mp out q fs2).attempts.length = 1 ∧
    (convert_onnx_model tc true mp out q fs2).result = Except.error eo := by
  refine ⟨?_, ?_, ?_, ?_⟩ <;>
    simp [convert_tensorflow_model, convert_onnx_model, h0, h1, ho]

/-- Witness for the amended C1 under the forced-always-failing toolchain. -/
theorem C1_witness :
    (alwaysFailToolchain (planConfig true (some [1, 28, 28, 1])) =
        Except.error "forced failure") ∧
    (alwaysFailToolchain
        { planConfig true (some [1, 28, 28, 1]) with optimizations := [] } =
        Except.error "forced failure") ∧
    (alwaysFailToolchain (onnxConfig true) = Except.error "forced failure") ∧
    ((convert_tensorflow_model alwaysFailToolchain acceptAll "out.tflite" true
          (some [1, 28, 28, 1]) []).attempts =
        [planConfig true (some [1, 28, 28, 1]),
          { planConfig true (some [1, 28, 28, 1]) with optimizations := [] }] ∧
      (convert_tensorflow_model alwaysFailToolchain acceptAll "out.tflite" true
          (some [1, 28, 28, 1]) []).result = Except.error "forced failure" ∧
      (convert_onnx_model alwaysFailToolchain true "m.onnx" "out.tflite" true
          []).attempts.length = 1 ∧
      (convert_onnx_model alwaysFailToolchain true "m.onnx" "out.tflite" true
          []).result = Except.error "forced failure") :=
  ⟨rfl, rfl, rfl,
    C1_fallback_retry alwaysFailToolchain acceptAll "out.tflite" "m.onnx" true
      (some [1, 28, 28, 1]) [] [] "forced failure" "forced failure"
      "forced failure" rfl rfl rfl⟩

/-- Counterexample to claim C2 as stated: a failing delegated conversion in
the PyTorch converter returns with the intermediate ONNX export still
present on the file system. -/
theorem C2_counterexample :
    ¬ (FS.pathExists (convert_pytorch_model alwaysFailToolchain true true []
        "m.pt" "model.tflite" true []).fs (onnx_path "model.tflite") = false) := by
  decide

/-- Claim C2 (amended): the intermediate-path cleanup runs only on the
success path.  When the toolchain succeeds, the ONNX converter removes its
intermediate SavedModel directory and the PyTorch converter removes both its
intermediate ONNX export and, through the delegate, the SavedModel
directory; but when the toolchain fails, both converters return with their
intermediate paths still present (the cleanup is not exception-scoped). -/
theorem C2_cleanup_on_success_only (tcS tcF : Toolchain) (shape : List Nat)
    (mp out : String) (q : Bool) (fs : FS) (a : Artifact) (e : String)
    (hS : tcS (onnxConfig q) = Except.ok a)
    (hF : tcF (onnxConfig q) = Except.error e) :
    FS.pathExists (convert_onnx_model tcS true mp out q fs).fs
        (tf_model_path out) = false ∧
    FS.pathExists (convert_pytorch_model tcS true true shape mp out q fs).fs
        (onnx_path out) = false ∧
    FS.pathExists (convert_pytorch_model tcS true true shape mp out q fs).fs
        (tf_model_path out) = false ∧
    FS.pathExists (convert_onnx_model tcF true mp out q fs).fs
        (tf_model_path out) = true ∧
    FS.pathExists (convert_pytorch_model tcF true true shape mp out q fs).fs
        (onnx_path out) = true := by
  refine ⟨?_, ?_, ?_, ?_, ?_⟩
  · simp [convert_onnx_model, hS, FS.pathExists_remove_self]
  · simp [convert_onnx_model, convert_pytorch_model, hS,
      FS.pathExists_remove_self]
  · simp [convert_onnx_model, convert_pytorch_model, hS,
      FS.pathExists_remove_self, FS.pathExists_remove_mono]
  · simp [convert_onnx_model, hF, FS.pathExists_write_self]
  · simp [convert_onnx_model, convert_pytorch_model, hF,
      FS.pathExists, FS.write]

/-- Witness for the amended C2: a succeeding and a failing toolchain run. -/
theorem C2_witness :
    (tfliteToolchain oneByteEmit (onnxConfig true) =
        Except.ok { bytes := [65], dtype := Dtype.float32 }) ∧
    (alwaysFailToolchain (onnxConfig true) = Except.error "forced failure") ∧
    (FS.pathExists (convert_onnx_model (tfliteToolchain oneByteEmit) true
          "m.onnx" "model.tflite" true []).fs (tf_model_path "model.tflite") =
        false ∧
      FS.pathExists (convert_pytorch_model (tfliteToolchain oneByteEmit) true
          true [] "m.pt" "model.tflite" true []).fs (onnx_path "model.tflite") =
        false ∧
      FS.pathExists (convert_pytorch_model (tfliteToolchain oneByteEmit) true
          true [] "m.pt" "model.tflite" true []).fs
          (tf_model_path "model.tflite") = false ∧
      FS.pathExists (convert_onnx_model alwaysFailToolchain true "m.onnx"
          "model.tflite" true []).fs (tf_model_path "model.tflite") = true ∧
      FS.pathExists (convert_pytorch_model alwaysFailToolchain true true []
          "m.pt" "model.tflite" true []).fs (onnx_path "model.tflite") = true) :=
  ⟨rfl, rfl,
    C2_cleanup_on_success_only (tfliteToolchain oneByteEmit)
      alwaysFailToolchain [] "m.onnx" "model.tflite" true []
      { bytes := [65], dtype := Dtype.float32 } "forced failure" rfl rfl⟩

/-- Counterexample to claim C8 as stated: with the PyTorch toolchain
installed but the ONNX toolchain missing, a pytorch-format request does not
proceed unaffected: flipping only the ONNX import availability turns the
very same pytorch request from success into failure, so the missing optional
dependency disables more than its own source format. -/
theorem C8_counterexample :
    (main_run (tfliteToolchain oneByteEmit) acceptAll true true false
        (some [1, 28])
        { model := "m.pt", framework := Framework.pytorch,
          output := "out.tflite", quantize := true, generate_header := false }
        [("m.pt", FileData.bin [])]).outcome =
      MainOutcome.ConversionFailed "ONNX not available" ∧
    (main_run (tfliteToolchain oneByteEmit) acceptAll true true true
        (some [1, 28])
        { model := "m.pt", framework := Framework.pytorch,
          output := "out.tflite", quantize := true, generate_header := false }
        [("m.pt", FileData.bin [])]).outcome = MainOutcome.Success := by
  constructor
  · decide
  · decide

/-- Claim C8 (amended): optional-toolchain availability is probed once at
process start by setup_imports.  A missing PyTorch disables only the pytorch
format: such requests fail before any toolchain attempt and with no file
written, while tensorflow and onnx requests run identically for any value of
the torch flag.  A missing ONNX disables both the onnx format and the
pytorch format: the onnx request fails untouched, the pytorch request fails
only after writing its intermediate ONNX export; tensorflow requests are
unaffected by both optional imports. -/
theorem C8_dependency_scoping (tc : Toolchain) (inspect : Artifact → Bool)
    (shape : Option (List Nat)) (m out : String) (q gh : Bool) (fs : FS)
    (t1 o1 t2 o2 : Bool) (hm : FS.pathExists fs m = true) :
    (main_run tc inspect true false o1 shape
        { model := m, framework := Framework.pytorch, output := out,
          quantize := q, generate_header := gh } fs =
      { fs := fs, attempts := [],
        outcome := MainOutcome.ConversionFailed "PyTorch not available" }) ∧
    (main_run tc inspect true true false shape
        { model := m, framework := Framework.pytorch, output := out,
          quantize := q, generate_header := gh } fs =
      { fs := FS.write fs (onnx_path out) (FileData.bin []), attempts := [],
        outcome := MainOutcome.ConversionFailed "ONNX not available" }) ∧
    (main_run tc inspect true t1 false shape
        { model := m, framework := Framework.onnx, output := out,
          quantize := q, generate_header := gh } fs =
      { fs := fs, attempts := [],
        outcome := MainOutcome.ConversionFailed "ONNX not available" }) ∧
    (main_run tc inspect true t1 o1 shape
        { model := m, framework := Framework.tensorflow, output := out,
          quantize := q, generate_header := gh } fs =
      main_run tc inspect true t2 o2 shape
        { model := m, framework := Framework.tensorflow, output := out,
          quantize := q, generate_header := gh } fs) ∧
    (main_run tc inspect true t1 true shape
        { model := m, framework := Framework.onnx, output := out,
          quantize := q, generate_header := gh } fs =
      main_run tc inspect true t2 true shape
        { model := m, framework := Framework.onnx, output := out,
          quantize := q, generate_header := gh } fs) := by
  refine ⟨?_, ?_, ?_, rfl, rfl⟩ <;>
    simp [main_run, setup_imports, hm, convert_pytorch_model,
      convert_onnx_model]

/-- Witness for the amended C8 on a one-file file system. -/
theorem C8_witness :
    (FS.pathExists [("m.pt", FileData.bin [])] "m.pt" = true) ∧
    ((main_run alwaysFailToolchain acceptAll true false true (some [1, 28])
        { model := "m.pt", framework := Framework.pytorch, output := "o.tflite",
          quantize := true, generate_header := false }
        [("m.pt", FileData.bin [])] =
      { fs := [("m.pt", FileData.bin [])], attempts := [],
        outcome := MainOutcome.ConversionFailed "PyTorch not available" }) ∧
    (main_run alwaysFailToolchain acceptAll true true false (some [1, 28])
        { model := "m.pt", framework := Framework.pytorch, output := "o.tflite",
          quantize := true, generate_header := false }
        [("m.pt", FileData.bin [])] =
      { fs := FS.write [("m.pt", FileData.bin [])] (onnx_path "o.tflite")
          (FileData.bin []), attempts := [],
        outcome := MainOutcome.ConversionFailed "ONNX not available" }) ∧
    (main_run alwaysFailToolchain acceptAll true true false (some [1, 28])
        { model := "m.pt", framework := Framework.onnx, output := "o.tflite",
          quantize := true, generate_header := false }
        [("m.pt", FileData.bin [])] =
      { fs := [("m.pt", FileData.bin [])], attempts := [],
        outcome := MainOutcome.ConversionFailed "ONNX not available" }) ∧
    (main_run alwaysFailToolchain acceptAll true true false (some [1, 28])
        { model := "m.pt", framework := Framework.tensorflow, output := "o.tflite",
          quantize := true, generate_header := false }
        [("m.pt", FileData.bin [])] =
      main_run alwaysFailToolchain acceptAll true false true (some [1, 28])
        { model := "m.pt", framework := Framework.tensorflow, output := "o.tflite",
          quantize := true, generate_header := false }
        [("m.pt", FileData.bin [])]) ∧
    (main_run alwaysFailToolchain acceptAll true true true (some [1, 28])
        { model := "m.pt", framework := Framework.onnx, output := "o.tflite",
          quantize := true, generate_header := false }
        [("m.pt", FileData.bin [])] =
      main_run alwaysFailToolchain acceptAll true false true (some [1, 28])
        { model := "m.pt", framework := Framework.onnx, output := "o.tflite",
          quantize := true, generate_header := false }
        [("m.pt", FileData.bin [])])) :=
  ⟨rfl, C8_dependency_scoping alwaysFailToolchain acceptAll (some [1, 28])
    "m.pt" "o.tflite" true false [("m.pt", FileData.bin [])] true true false
    true rfl⟩

theorem isLowerHex_hexDigitChar : ∀ k < 16, isLowerHex (hexDigitChar k) = true := by decide

theorem hexDigitVal_hexDigitChar : ∀ k < 16, hexDigitVal (hexDigitChar k) = k := by decide

theorem decodeHexBytes_comma (l : List Char) :
    decodeHexBytes (',' :: l) = decodeHexBytes l := by
  simp [decodeHexBytes]

theorem decodeHexBytes_lf (l : List Char) :
    decodeHexBytes ('\n' :: l) = decodeHexBytes l := by
  simp [decodeHexBytes]

theorem decodeHexBytes_space (l : List Char) :
    decodeHexBytes (' ' :: l) = decodeHexBytes l := by
  simp [decodeHexBytes]

theorem decodeHexBytes_byteLiteral (b : Nat) (hb : b < 256) (l : List Char) :
    decodeHexBytes (byteLiteral b ++ l) = b :: decodeHexBytes l := by
  have h1 : b / 16 < 16 := by omega
  have h2 : b % 16 < 16 := by omega
  simp [byteLiteral, decodeHexBytes, isLowerHex_hexDigitChar _ h1,
    isLowerHex_hexDigitChar _ h2, hexDigitVal_hexDigitChar _ h1,
    hexDigitVal_hexDigitChar _ h2, decodeHexBytes_comma]
  omega
theorem decodeHexBytes_hexArrayFrom (data : List Nat) :
    (∀ b ∈ data, b < 256) → ∀ (i : Nat) (l : List Char),
      decodeHexBytes (hexArrayFrom i data ++ l) = data ++ decodeHexBytes l := by
  induction data with
  | nil => intro _ i l; simp [hexArrayFrom]
  | cons b rest ih =>
    intro hd i l
    have hb : b < 256 := hd b (List.mem_cons_self b rest)
    have hrest : ∀ x ∈ rest, x < 256 := fun x hx => hd x (List.mem_cons_of_mem b hx)
    simp only [hexArrayFrom, List.append_assoc]
    by_cases hi : i % 16 = 0
    · simp [hi, decodeHexBytes_lf, decodeHexBytes_space,
        decodeHexBytes_byteLiteral b hb, ih hrest (i + 1) l]
    · simp [hi, decodeHexBytes_byteLiteral b hb, ih hrest (i + 1) l]

theorem decodeHexBytes_hexArray (data : List Nat) (hd : ∀ b ∈ data, b < 256) :
    decodeHexBytes (hexArrayFrom 0 data) = data := by
  have h := decodeHexBytes_hexArrayFrom data hd 0 []
  simpa [decodeHexBytes] using h
theorem chunksOf_flatten_fuel (n : Nat) :
    ∀ (m : Nat) (l : List Nat), l.length ≤ m → (chunksOf n l).flatten = l := by
  intro m
  induction m with
  | zero =>
    intro l h
    have : l = [] := List.length_eq_zero.mp (Nat.le_zero.mp h)
    subst this
    simp [chunksOf]
  | succ m ih =>
    intro l h
    match l with
    | [] => simp [chunksOf]
    | b :: rest =>
      have hlen : (rest.drop (n - 1)).length ≤ m := by
        simp only [List.length_cons] at h
        have := List.length_drop (n - 1) rest
        omega
      simp only [chunksOf, List.flatten_cons, ih (rest.drop (n - 1)) hlen]
      simp [List.take_append_drop]

theorem chunksOf_flatten (l : List Nat) : (chunksOf 16 l).flatten = l :=
  chunksOf_flatten_fuel 16 l.length l (Nat.le_refl _)

theorem hexArrayFrom_append (xs ys : List Nat) :
    ∀ i, hexArrayFrom i (xs ++ ys) =
      hexArrayFrom i xs ++ hexArrayFrom (i + xs.length) ys := by
  induction xs with
  | nil => intro i; simp [hexArrayFrom]
  | cons b rest ih =>
    intro i
    have hidx : i + 1 + rest.length = i + (rest.length + 1) := by omega
    simp only [List.cons_append, hexArrayFrom, List.append_eq, ih (i + 1),
      List.length_cons, List.append_assoc, hidx]

theorem hexArrayFrom_add_16 (xs : List Nat) :
    ∀ i, hexArrayFrom (i + 16) xs = hexArrayFrom i xs := by
  induction xs with
  | nil => intro i; rfl
  | cons b rest ih =>
    intro i
    have h : (i + 16) % 16 = i % 16 := Nat.add_mod_right i 16
    have h2 : i + 16 + 1 = (i + 1) + 16 := by omega
    simp only [hexArrayFrom, h, h2, ih (i + 1)]

theorem hexArrayFrom_no_newline (xs : List Nat) :
    ∀ i, 1 ≤ i → i + xs.length ≤ 16 →
      hexArrayFrom i xs = (xs.map byteLiteral).flatten := by
  induction xs with
  | nil => intro i _ _; rfl
  | cons b rest ih =>
    intro i h1 h2
    simp only [List.length_cons] at h2
    have hne : ¬ (i % 16 = 0) := by omega
    simp [hexArrayFrom, hne, ih (i + 1) (by omega) (by omega)]

theorem hexArrayFrom_zero_chunk (b : Nat) (t : List Nat) (h : t.length ≤ 15) :
    hexArrayFrom 0 (b :: t) = renderChunk (b :: t) := by
  simp [hexArrayFrom, renderChunk,
    hexArrayFrom_no_newline t 1 (by omega) (by omega)]

theorem hexArrayFrom_chunks_fuel :
    ∀ (m : Nat) (l : List Nat), l.length ≤ m →
      hexArrayFrom 0 l = ((chunksOf 16 l).map renderChunk).flatten := by
  intro m
  induction m with
  | zero =>
    intro l h
    have : l = [] := List.length_eq_zero.mp (Nat.le_zero.mp h)
    subst this
    simp [chunksOf, hexArrayFrom]
  | succ m ih =>
    intro l h
    match l with
    | [] => simp [chunksOf, hexArrayFrom]
    | b :: rest =>
      simp only [List.length_cons] at h
      by_cases hr : rest.length ≤ 15
      · have ht : rest.take 15 = rest := List.take_of_length_le hr
        have hd : rest.drop 15 = [] := List.drop_eq_nil_of_le hr
        simp [chunksOf, ht, hd, hexArrayFrom_zero_chunk b rest hr]
      · have hsplit : b :: rest = (b :: rest.take 15) ++ rest.drop 15 := by
          simp [List.take_append_drop]
        have htl : (rest.take 15).length = 15 := by
          simp [List.length_take]
          omega
        have hlen : (rest.drop 15).length ≤ m := by
          have := List.length_drop 15 rest
          omega
        calc hexArrayFrom 0 (b :: rest)
            = hexArrayFrom 0 ((b :: rest.take 15) ++ rest.drop 15) := by
              rw [← hsplit]
          _ = hexArrayFrom 0 (b :: rest.take 15) ++
                hexArrayFrom (0 + (b :: rest.take 15).length) (rest.drop 15) := by
              rw [hexArrayFrom_append]
          _ = renderChunk (b :: rest.take 15) ++ hexArrayFrom 0 (rest.drop 15) := by
              rw [hexArrayFrom_zero_chunk b (rest.take 15) (by omega)]
              congr 1
              have : 0 + (b :: rest.take 15).length = 0 + 16 := by
                simp [htl]
              rw [this]
              exact hexArrayFrom_add_16 (rest.drop 15) 0
          _ = ((chunksOf 16 (b :: rest)).map renderChunk).flatten := by
              rw [ih (rest.drop 15) hlen]
              simp [chunksOf]

theorem hexArrayFrom_chunks (l : List Nat) :
    hexArrayFrom 0 l = ((chunksOf 16 l).map renderChunk).flatten :=
  hexArrayFrom_chunks_fuel l.length l (Nat.le_refl _)

theorem chunksOf_sizes_fuel :
    ∀ (m : Nat) (l : List Nat), l.length ≤ m →
      ∀ c ∈ chunksOf 16 l, 0 < c.length ∧ c.length ≤ 16 := by
  intro m
  induction m with
  | zero =>
    intro l h c hc
    have : l = [] := List.length_eq_zero.mp (Nat.le_zero.mp h)
    subst this
    simp [chunksOf] at hc
  | succ m ih =>
    intro l h c hc
    cases l with
    | nil => simp [chunksOf] at hc
    | cons b rest =>
      simp only [chunksOf, List.mem_cons] at hc
      rcases hc with hc | hc
      · subst hc
        have h15 := List.length_take_le (16 - 1) rest
        simp only [List.length_cons]
        omega
      · have hlen : (rest.drop (16 - 1)).length ≤ m := by
          simp only [List.length_cons] at h
          have := List.length_drop (16 - 1) rest
          omega
        exact ih (rest.drop (16 - 1)) hlen c hc

theorem chunksOf_sizes (l : List Nat) :
    ∀ c ∈ chunksOf 16 l, 0 < c.length ∧ c.length ≤ 16 :=
  chunksOf_sizes_fuel l.length l (Nat.le_refl _)

/-- Claim C3: the C-header emitter is a pure order-preserving transform: the
generated text is exactly the fixed prefix (carrying the byte length), the
hex array, and the fixed trailer whose length constant again equals the byte
length; the hex array is the concatenation of newline-led lines of 16
literals each (the final line possibly shorter), every byte is rendered as a
two-lowercase-hex-digit literal; and scanning the hex literals back out of
the array reproduces the binary exactly.  Determinism is definitional: the
emitter is a function of the bytes alone. -/
theorem C3_emit_roundtrip (data : List Nat) (hd : ∀ b ∈ data, b < 256) :
    generate_model_header_content data =
      headerPrefix data.length ++ String.mk (hexArrayFrom 0 data) ++
        headerSuffix data.length ∧
    hexArrayFrom 0 data = ((chunksOf 16 data).map renderChunk).flatten ∧
    (chunksOf 16 data).flatten = data ∧
    (∀ c ∈ chunksOf 16 data, 0 < c.length ∧ c.length ≤ 16) ∧
    (∀ b ∈ data, isLowerHex (hexDigitChar (b / 16)) = true ∧
      isLowerHex (hexDigitChar (b % 16)) = true ∧
      byteLiteral b = ['0', 'x', hexDigitChar (b / 16), hexDigitChar (b % 16), ','] ∧
      16 * hexDigitVal (hexDigitChar (b / 16)) +
        hexDigitVal (hexDigitChar (b % 16)) = b) ∧
    decodeHexBytes (hexArrayFrom 0 data) = data := by
  refine ⟨rfl, hexArrayFrom_chunks data, chunksOf_flatten data,
    chunksOf_sizes data, ?_, decodeHexBytes_hexArray data hd⟩
  intro b hb
  have h256 : b < 256 := hd b hb
  have h1 : b / 16 < 16 := by omega
  have h2 : b % 16 < 16 := by omega
  exact ⟨isLowerHex_hexDigitChar _ h1, isLowerHex_hexDigitChar _ h2, rfl, by
    rw [hexDigitVal_hexDigitChar _ h1, hexDigitVal_hexDigitChar _ h2]; omega⟩

/-- Witness for C3 at the concrete binary [0, 22, 171, 255]. -/
theorem C3_witness :
    (∀ b ∈ [0, 22, 171, 255], b < 256) ∧
      (generate_model_header_content [0, 22, 171, 255] =
        headerPrefix (List.length [0, 22, 171, 255]) ++
          String.mk (hexArrayFrom 0 [0, 22, 171, 255]) ++
          headerSuffix (List.length [0, 22, 171, 255]) ∧
      hexArrayFrom 0 [0, 22, 171, 255] =
        ((chunksOf 16 [0, 22, 171, 255]).map renderChunk).flatten ∧
      (chunksOf 16 [0, 22, 171, 255]).flatten = [0, 22, 171, 255] ∧
      (∀ c ∈ chunksOf 16 [0, 22, 171, 255], 0 < c.length ∧ c.length ≤ 16) ∧
      (∀ b ∈ [0, 22, 171, 255], isLowerHex (hexDigitChar (b / 16)) = true ∧
        isLowerHex (hexDigitChar (b % 16)) = true ∧
        byteLiteral b =
          ['0', 'x', hexDigitChar (b / 16), hexDigitChar (b % 16), ','] ∧
        16 * hexDigitVal (hexDigitChar (b / 16)) +
          hexDigitVal (hexDigitChar (b % 16)) = b) ∧
      decodeHexBytes (hexArrayFrom 0 [0, 22, 171, 255]) = [0, 22, 171, 255]) :=
  ⟨by decide, C3_emit_roundtrip [0, 22, 171, 255] (by decide)⟩

end Spore
